import Mathlib

/-!
Shallow embedding of src/ringbuffer_trait.rs (crate ringbuffer).

The file under verification defines the capability traits (RingBuffer,
WritableRingbuffer, ReadableRingbuffer, RingBufferExt), the two iterator
adapters, and three code-sharing bodies (impl_ringbuffer,
impl_read_ringbuffer, impl_ringbuffer_ext) that every backend instantiates
with its readptr/writeptr fields, a masking function and unchecked
indexed access to its backing store.

The embedding fixes one state type carrying the two logical positions
together with the backend-supplied pieces: a fixed capacity, the masking
function, and the backing store read as a function from physical slots to
values (`data i` models the value that the unchecked accessors
get_unchecked(i) and get_unchecked_mut(i) resolve to). Each operation below
is the literal body of the corresponding Rust item; positions are Nat
(logical positions only grow, overflow of usize is out of scope per the
design notes).
-/

/-- One ringbuffer instance as the shared trait code sees it: the pair of
logical positions maintained by the shared bodies, plus the
backend-supplied capacity, masking function and backing store. -/
structure RingBuffer (T : Type) where
  capacity : Nat
  mask : Nat → Nat
  data : Nat → T
  readptr : Nat
  writeptr : Nat

namespace RingBuffer

variable {T : Type}

/-- Body of len from impl_ringbuffer: writeptr - readptr (usize
subtraction, modelled as Nat truncated subtraction). -/
def len (rb : RingBuffer T) : Nat :=
  rb.writeptr - rb.readptr

/-- Default method RingBuffer::is_empty: self.len() == 0. -/
def is_empty (rb : RingBuffer T) : Bool :=
  rb.len == 0

/-- Default method RingBuffer::is_full: self.len() == self.capacity(). -/
def is_full (rb : RingBuffer T) : Bool :=
  rb.len == rb.capacity

/-- Body of clear from impl_ringbuffer: readptr = 0; writeptr = 0. The
backend fields (capacity, store) are untouched. -/
def clear (rb : RingBuffer T) : RingBuffer T :=
  { rb with readptr := 0, writeptr := 0 }

/-- Body of skip from impl_read_ringbuffer: readptr += 1, with no
emptiness check. -/
def skip (rb : RingBuffer T) : RingBuffer T :=
  { rb with readptr := rb.readptr + 1 }

/-- Body of get from impl_ringbuffer_ext: None when is_empty or
index >= len, otherwise the unchecked read at mask(readptr + index). -/
def get (rb : RingBuffer T) (index : Nat) : Option T :=
  if rb.is_empty ∨ rb.len ≤ index then
    none
  else
    some (rb.data (rb.mask (rb.readptr + index)))

/-- Body of get_mut from impl_ringbuffer_ext: same guard and slot
computation as get, through the mutable unchecked accessor. -/
def get_mut (rb : RingBuffer T) (index : Nat) : Option T :=
  if rb.is_empty ∨ rb.len ≤ index then
    none
  else
    some (rb.data (rb.mask (rb.readptr + index)))

/-- Body of front from impl_ringbuffer_ext: when not empty, the unchecked
read at mask(writeptr - 1); None otherwise. -/
def front (rb : RingBuffer T) : Option T :=
  if !rb.is_empty then
    some (rb.data (rb.mask (rb.writeptr - 1)))
  else
    none

/-- Body of front_mut from impl_ringbuffer_ext: same as front through the
mutable unchecked accessor. -/
def front_mut (rb : RingBuffer T) : Option T :=
  if !rb.is_empty then
    some (rb.data (rb.mask (rb.writeptr - 1)))
  else
    none

/-- Default method RingBufferExt::back: self.get(0). -/
def back (rb : RingBuffer T) : Option T :=
  rb.get 0

/-- Default method RingBufferExt::back_mut: self.get_mut(0). -/
def back_mut (rb : RingBuffer T) : Option T :=
  rb.get_mut 0

end RingBuffer

/-- State of iter::RingBufferIterator: the current iterator position
(the borrowed buffer is passed alongside). -/
structure RingBufferIterator where
  index : Nat

namespace RingBufferIterator

/-- RingBufferIterator::new: index starts at 0. -/
def new : RingBufferIterator :=
  { index := 0 }

/-- Iterator::next for RingBufferIterator: res = obj.get(index);
index += 1; res. Returns the produced item and the advanced iterator. -/
def next {T : Type} (rb : RingBuffer T) (it : RingBufferIterator) :
    Option T × RingBufferIterator :=
  (rb.get it.index, { index := it.index + 1 })

end RingBufferIterator

/-- State of iter::RingBufferMutIterator: the current iterator position. -/
structure RingBufferMutIterator where
  index : Nat

namespace RingBufferMutIterator

/-- RingBufferMutIterator::new: index starts at 0. -/
def new : RingBufferMutIterator :=
  { index := 0 }

/-- RingBufferMutIterator::next: res = obj.get_mut(index); index += 1;
res. -/
def next {T : Type} (rb : RingBuffer T) (it : RingBufferMutIterator) :
    Option T × RingBufferMutIterator :=
  (rb.get_mut it.index, { index := it.index + 1 })

end RingBufferMutIterator

namespace RingBuffer

/-- The iterator state and the list of items produced by the first n calls
of RingBufferIterator::next, starting from RingBufferIterator::new. -/
def runIter (rb : RingBuffer T) : Nat → RingBufferIterator × List (Option T)
  | 0 => (RingBufferIterator.new, [])
  | Nat.succ n =>
      let p := runIter rb n
      let s := RingBufferIterator.next rb p.1
      (s.2, p.2 ++ [s.1])

/-- The iterator state and the list of items produced by the first n calls
of RingBufferMutIterator::next, starting from RingBufferMutIterator::new. -/
def runIterMut (rb : RingBuffer T) : Nat → RingBufferMutIterator × List (Option T)
  | 0 => (RingBufferMutIterator.new, [])
  | Nat.succ n =>
      let p := runIterMut rb n
      let s := RingBufferMutIterator.next rb p.1
      (s.2, p.2 ++ [s.1])

/-- A concrete empty instance (capacity 2, modulo masking): the state every
backend's default construction produces. -/
def rbEmpty : RingBuffer Nat :=
  { capacity := 2
    mask := fun n => n % 2
    data := fun _ => 0
    readptr := 0
    writeptr := 0 }

/-- A concrete one-element instance (capacity 2, modulo masking): readptr 0,
writeptr 1, slot i of the store holding i + 10. -/
def rbOne : RingBuffer Nat :=
  { capacity := 2
    mask := fun n => n % 2
    data := fun n => n + 10
    readptr := 0
    writeptr := 1 }

/-- Closed form of get with the guard stated on len directly. -/
theorem get_eq_ite (rb : RingBuffer T) (index : Nat) :
    rb.get index = (if rb.len = 0 ∨ rb.len ≤ index then none
      else some (rb.data (rb.mask (rb.readptr + index)))) := by
  by_cases h : rb.len = 0 ∨ rb.len ≤ index <;> simp [get, is_empty, h]

/-- Closed form of get_mut with the guard stated on len directly. -/
theorem get_mut_eq_ite (rb : RingBuffer T) (index : Nat) :
    rb.get_mut index = (if rb.len = 0 ∨ rb.len ≤ index then none
      else some (rb.data (rb.mask (rb.readptr + index)))) := by
  by_cases h : rb.len = 0 ∨ rb.len ≤ index <;> simp [get_mut, is_empty, h]

/-- After n calls, RingBufferIterator::next has produced exactly
get(0) .. get(n-1) and its index field is n. -/
theorem runIter_eq (rb : RingBuffer T) :
    ∀ n : Nat, (rb.runIter n).1.index = n
      ∧ (rb.runIter n).2 = (List.range n).map rb.get
  | 0 => ⟨rfl, rfl⟩
  | Nat.succ n => by
      obtain ⟨h1, h2⟩ := runIter_eq rb n
      refine ⟨?_, ?_⟩ <;>
        simp [runIter, RingBufferIterator.next, h1, h2, List.range_succ]

/-- After n calls, RingBufferMutIterator::next has produced exactly
get_mut(0) .. get_mut(n-1) and its index field is n. -/
theorem runIterMut_eq (rb : RingBuffer T) :
    ∀ n : Nat, (rb.runIterMut n).1.index = n
      ∧ (rb.runIterMut n).2 = (List.range n).map rb.get_mut
  | 0 => ⟨rfl, rfl⟩
  | Nat.succ n => by
      obtain ⟨h1, h2⟩ := runIterMut_eq rb n
      refine ⟨?_, ?_⟩ <;>
        simp [runIterMut, RingBufferMutIterator.next, h1, h2, List.range_succ]

/-- Querying at or past len always yields none. -/
theorem get_of_len_le (rb : RingBuffer T) (index : Nat) (h : rb.len ≤ index) :
    rb.get index = none := by
  rw [get_eq_ite]
  simp [h]

/-- Claim C1, evaluated at the failing input: the empty instance satisfies
the invariant (readptr <= writeptr, len 0), yet one call of the shared skip
body leaves writeptr < readptr, so skip does not preserve the invariant
writeptr >= readptr. -/
theorem skip_empty_breaks_invariant :
    rbEmpty.readptr ≤ rbEmpty.writeptr ∧ rbEmpty.len = 0
      ∧ rbEmpty.skip.writeptr < rbEmpty.skip.readptr := by
  decide

/-- Claim C2, evaluated at the failing input: on the empty instance the
shared skip body still advances readptr by one, so skip on an empty buffer
is not a no-op, contrary to the claim and to the doc comment of
ReadableRingbuffer::skip. -/
theorem skip_empty_not_nop :
    rbEmpty.len = 0 ∧ rbEmpty.skip.readptr = rbEmpty.readptr + 1 := by
  decide

/-- Claim C3: under the backend masking contract (mask lands in
[0, capacity) on every input), the physical slot mask(readptr + index)
computed by get and get_mut at an in-range index is below capacity, the
slot mask(writeptr - 1) computed by front and front_mut is below capacity,
and get at such an index indeed performs the unchecked read at
mask(readptr + index). -/
theorem masked_index_in_bounds (rb : RingBuffer T) (index : Nat)
    (hmask : ∀ n, rb.mask n < rb.capacity) (hidx : index < rb.len) :
    rb.mask (rb.readptr + index) < rb.capacity
      ∧ rb.mask (rb.writeptr - 1) < rb.capacity
      ∧ rb.get index = some (rb.data (rb.mask (rb.readptr + index))) := by
  have hcond : ¬ (rb.len = 0 ∨ rb.len ≤ index) := by omega
  refine ⟨hmask _, hmask _, ?_⟩
  rw [get_eq_ite, if_neg hcond]

/-- Witness for masked_index_in_bounds at the one-element instance rbOne
and index 0. -/
theorem masked_index_in_bounds_witness :
    rbOne.mask (rbOne.readptr + 0) < rbOne.capacity
      ∧ rbOne.mask (rbOne.writeptr - 1) < rbOne.capacity
      ∧ rbOne.get 0 = some (rbOne.data (rbOne.mask (rbOne.readptr + 0))) :=
  masked_index_in_bounds rbOne 0
    (fun n => by simp only [rbOne]; omega) (by decide)

/-- Claim C4: get index is none exactly when the buffer is empty or
index >= len; otherwise it is the backing-store element at physical slot
mask(readptr + index); and get at len and past it is none in every state,
the empty one included. -/
theorem get_characterisation (rb : RingBuffer T) (index : Nat) :
    (rb.get index = none ↔ rb.len = 0 ∨ rb.len ≤ index)
      ∧ rb.get index = (if rb.len = 0 ∨ rb.len ≤ index then none
          else some (rb.data (rb.mask (rb.readptr + index))))
      ∧ rb.get rb.len = none
      ∧ rb.get (rb.len + index) = none := by
  have h := get_eq_ite rb index
  refine ⟨?_, h, get_of_len_le rb rb.len (le_refl _),
    get_of_len_le rb _ (Nat.le_add_right _ _)⟩
  rw [h]
  by_cases hc : rb.len = 0 ∨ rb.len ≤ index <;> simp [hc]

/-- Claim C5: front and front_mut are none exactly on the empty buffer and
otherwise return the backing-store element at physical slot
mask(writeptr - 1), the slot of the most recently written element. -/
theorem front_characterisation (rb : RingBuffer T) :
    rb.front = (if rb.len = 0 then none
        else some (rb.data (rb.mask (rb.writeptr - 1))))
      ∧ rb.front_mut = (if rb.len = 0 then none
        else some (rb.data (rb.mask (rb.writeptr - 1)))) := by
  constructor <;>
    (by_cases h : rb.len = 0 <;> simp [front, front_mut, is_empty, h])

/-- Claim C6: is_full holds exactly when len equals capacity, and is_empty
holds exactly when len is zero, in every state. -/
theorem is_full_is_empty_iff (rb : RingBuffer T) :
    (rb.is_full = true ↔ rb.len = rb.capacity)
      ∧ (rb.is_empty = true ↔ rb.len = 0) := by
  simp [is_full, is_empty]

/-- Claim C7: clear sets both logical positions to zero, after which len is
zero and capacity is unchanged, and clear is idempotent (so clear on an
already-empty instance again leaves len zero and capacity unchanged). -/
theorem clear_resets (rb : RingBuffer T) :
    rb.clear.readptr = 0 ∧ rb.clear.writeptr = 0 ∧ rb.clear.len = 0
      ∧ rb.clear.capacity = rb.capacity ∧ rb.clear.clear = rb.clear :=
  ⟨rfl, rfl, rfl, rfl, rfl⟩

/-- Claim C8: after n calls the read-only iterator has produced exactly
get(0) .. get(n-1) and its index is n, the mutable iterator likewise with
get_mut, and running the read-only iterator len + 1 steps produces
get(0) .. get(len-1) followed by none. -/
theorem iter_visits_get_in_order (rb : RingBuffer T) (n : Nat) :
    (rb.runIter n).2 = (List.range n).map rb.get
      ∧ (rb.runIterMut n).2 = (List.range n).map rb.get_mut
      ∧ (rb.runIter n).1.index = n
      ∧ (rb.runIterMut n).1.index = n
      ∧ (rb.runIter (rb.len + 1)).2
        = ((List.range rb.len).map rb.get) ++ [none] := by
  obtain ⟨h1, h2⟩ := runIter_eq rb n
  obtain ⟨h3, h4⟩ := runIterMut_eq rb n
  obtain ⟨h5, h6⟩ := runIter_eq rb (rb.len + 1)
  refine ⟨h2, h4, h1, h3, ?_⟩
  rw [h6, List.range_succ, List.map_append]
  simp [get_of_len_le rb rb.len (le_refl _)]

/-- Claim C9: back is get 0 and back_mut is get_mut 0, in every state. -/
theorem back_is_get_zero (rb : RingBuffer T) :
    rb.back = rb.get 0 ∧ rb.back_mut = rb.get_mut 0 :=
  ⟨rfl, rfl⟩

/-- Claim C10: on a non-empty buffer, front agrees with get at index
len - 1: both resolve to the backing-store element at physical slot
mask(writeptr - 1), since readptr + (len - 1) = writeptr - 1. -/
theorem front_eq_get_last (rb : RingBuffer T) (h : 0 < rb.len) :
    rb.front = rb.get (rb.len - 1) := by
  have hlen : rb.len = rb.writeptr - rb.readptr := rfl
  have h0 : rb.len ≠ 0 := by omega
  have h1 : ¬ (rb.len = 0 ∨ rb.len ≤ rb.len - 1) := by omega
  have key : rb.readptr + (rb.len - 1) = rb.writeptr - 1 := by omega
  rw [get_eq_ite, if_neg h1, key]
  simp [front, is_empty, h0]

/-- Witness for front_eq_get_last at the one-element instance rbOne. -/
theorem front_eq_get_last_witness :
    rbOne.front = rbOne.get (rbOne.len - 1) :=
  front_eq_get_last rbOne (by decide)

end RingBuffer
